import Mathlib

set_option autoImplicit false

/-
Shallow embedding of `src/classifier.py` (Udacity ND089 flower-image classifier).

The file models the `Classifier` class: its configuration dictionary, the
data-directory resolver, the transform builder, the dataset/loader builders,
the architecture resolver / head builder, the optimizer builder and the
forward method.  External collaborators (the filesystem, the torchvision
pre-trained model registry) are passed in as explicit parameters
(`isDir : String → Bool`, `registry : String → Option PretrainedModel`).
Python exceptions are modelled with `Except PyError`.
-/

deriving instance DecidableEq for Except

namespace Classifier

/-- Numeric value passed to the Python constructor: either a Python `int`
or a Python `float` (modelled as a rational). -/
inductive PyNum where
  | int (n : Int)
  | float (q : ℚ)
deriving DecidableEq, Repr

/-- Python `float(x)` coercion on a numeric argument. -/
def pyFloat : PyNum → ℚ
  | .int n => (n : ℚ)
  | .float q => q

/-- Python `int(x)` coercion on a numeric argument: a float is truncated
toward zero. -/
def pyInt : PyNum → Int
  | .int n => n
  | .float q => if 0 ≤ q then ⌊q⌋ else ⌈q⌉

/-- Value stored in the `self.config` dictionary: a string, an int, or a
float entry. -/
inductive ConfigVal where
  | s (v : String)
  | i (v : Int)
  | f (v : ℚ)
deriving DecidableEq, Repr

/-- The `self.config` dictionary, as the ordered key/value list Python
builds at lines 46-54. -/
abbrev Config := List (String × ConfigVal)

/-- The dictionary literal assigned to `self.config` in `__init__`
(lines 46-54): `input_units` is set to the literal `1` with the comment
"To be set during network initialization based on architecture". -/
def mkConfig (architecture : String) (dropout epochs hidden_units learning_rate output_units : PyNum) : Config :=
  [("architecture", .s architecture),
   ("dropout", .f (pyFloat dropout)),
   ("epochs", .i (pyInt epochs)),
   ("hidden_units", .i (pyInt hidden_units)),
   ("learning_rate", .f (pyFloat learning_rate)),
   ("input_units", .i 1),
   ("output_units", .i (pyInt output_units))]

/-- Dictionary access `self.config[k]` for a string-valued key. -/
def cfgStr (c : Config) (k : String) : String :=
  match c.lookup k with
  | some (.s v) => v
  | _ => ""

/-- Dictionary access `self.config[k]` for an int-valued key. -/
def cfgInt (c : Config) (k : String) : Int :=
  match c.lookup k with
  | some (.i v) => v
  | _ => 0

/-- Dictionary access `self.config[k]` for a float-valued key. -/
def cfgQ (c : Config) (k : String) : ℚ :=
  match c.lookup k with
  | some (.f v) => v
  | _ => 0

/-- Python exceptions raised by the code under model. -/
inductive PyError where
  | typeError (msg : String)
  | notADirectoryError (msg : String)
  | valueError (msg : String)
deriving DecidableEq, Repr

/-- Model of `os.path.join(root, split)` for a string root and a relative
split name. -/
def pathJoin (root split : String) : String :=
  if root = "" then split
  else if root.endsWith "/" then root ++ split
  else root ++ "/" ++ split

/-- Model of `Classifier._get_data_directories` (lines 69-87).  The
filesystem is abstracted by `isDir`.  With `data_dir = None` (the default),
`os.path.join(None, test)` raises `TypeError` before any validation runs;
there is no `None` guard in the source.  Otherwise the three subpaths are
built and each is checked with `os.path.isdir` in the dictionary insertion
order test, train, valid; the first missing one raises
`NotADirectoryError` naming the split and the path. -/
def getDataDirectories (isDir : String → Bool) (data_dir : Option String) :
    Except PyError (List (String × String)) :=
  match data_dir with
  | none => .error (.typeError "expected str, bytes or os.PathLike object, not NoneType")
  | some root =>
    let data_dirs : List (String × String) :=
      [("test", pathJoin root "test"),
       ("train", pathJoin root "train"),
       ("valid", pathJoin root "valid")]
    match data_dirs.find? (fun p => !isDir p.2) with
    | some p =>
        .error (.notADirectoryError
          ("Directory \"" ++ p.2 ++ "\" does not exist for the \"" ++ p.1 ++ "\" data set."))
    | none => .ok data_dirs

/-- One torchvision transform operation appearing in the source. -/
inductive TransformOp where
  | randomRotation (degrees : Int)
  | randomResizedCrop (size : Int)
  | randomHorizontalFlip
  | toTensor
  | resize (size : Int)
  | centerCrop (size : Int)
  | normalize (mean std : List ℚ)
deriving DecidableEq, Repr

/-- The `self.data_transforms` dictionary: one `transforms.Compose`
pipeline per split. -/
structure DataTransforms where
  train : List TransformOp
  valid : List TransformOp
  test : List TransformOp
deriving DecidableEq, Repr

/-- Model of `Classifier._get_data_transforms` (lines 111-141), the exact
pipelines of the source: the train pipeline has no `Normalize` step. -/
def getDataTransforms : DataTransforms :=
  { train := [.randomRotation 30, .randomResizedCrop 224, .randomHorizontalFlip, .toTensor],
    valid := [.resize 255, .centerCrop 224, .toTensor,
              .normalize [0.485, 0.456, 0.406] [0.229, 0.224, 0.225]],
    test := [.resize 255, .centerCrop 224, .toTensor,
             .normalize [0.485, 0.456, 0.406] [0.229, 0.224, 0.225]] }

/-- A `torchvision.datasets.ImageFolder(dir, transform=...)` value: a
dataset indexed by the folder-per-class convention rooted at `root`. -/
structure ImageFolderDataset where
  root : String
  transform : List TransformOp
deriving DecidableEq, Repr

/-- The `self.data_sets` dictionary. -/
structure SplitSets where
  test : ImageFolderDataset
  train : ImageFolderDataset
  valid : ImageFolderDataset
deriving DecidableEq, Repr

/-- A `torch.utils.data.DataLoader(dataset, batch_size, shuffle)` value;
`shuffle` defaults to `False` when not passed. -/
structure DataLoader where
  dataset : ImageFolderDataset
  batchSize : Nat
  shuffle : Bool
deriving DecidableEq, Repr

/-- The `self.data_loaders` dictionary. -/
structure SplitLoaders where
  test : DataLoader
  train : DataLoader
  valid : DataLoader
deriving DecidableEq, Repr

/-- Helper: read a path out of the resolved `data_dirs` dictionary. -/
def dirOf (dirs : List (String × String)) (k : String) : String :=
  (dirs.lookup k).getD ""

/-- Model of `Classifier._get_image_datasets` (lines 89-98). -/
def getImageDatasets (dirs : List (String × String)) (tf : DataTransforms) : SplitSets :=
  { test := ⟨dirOf dirs "test", tf.test⟩,
    train := ⟨dirOf dirs "train", tf.train⟩,
    valid := ⟨dirOf dirs "valid", tf.valid⟩ }

/-- Model of `Classifier._get_data_loaders` (lines 100-109): batch size 64
everywhere, `shuffle=True` only for the train loader. -/
def getDataLoaders (ds : SplitSets) : SplitLoaders :=
  { test := ⟨ds.test, 64, false⟩,
    train := ⟨ds.train, 64, true⟩,
    valid := ⟨ds.valid, 64, false⟩ }

/-- Origin of a tensor parameter: from the pre-trained network, or from a
layer of the freshly built head. -/
inductive ParamSrc where
  | pretrained
  | head
deriving DecidableEq, Repr

/-- A `torch.nn.Parameter` with its mutable `requires_grad` flag. -/
structure Param where
  src : ParamSrc
  idx : Nat
  requiresGrad : Bool
deriving DecidableEq, Repr

/-- A model returned by the torchvision factory
(`getattr(models, name)(pretrained=True)`): its feature-extraction
parameters and the parameters of its stock classifier sub-module. -/
structure PretrainedModel where
  featureParams : List Param
  classifierParams : List Param
deriving DecidableEq, Repr

/-- One layer of the custom head built with `nn.Sequential`. -/
inductive Layer where
  | linear (inFeatures outFeatures : Int)
  | relu
  | dropout (p : ℚ)
  | logSoftmax (dim : Int)
deriving DecidableEq, Repr

/-- The composed model produced by `_get_model`: the (frozen) feature
parameters, the structure of the attached head, and the head parameters
now installed as `model.classifier`. -/
structure Model where
  featureParams : List Param
  classifierLayers : List Layer
  classifierParams : List Param
deriving DecidableEq, Repr

/-- The freezing loop `for param in model.parameters(): param.requires_grad = False`. -/
def freeze (ps : List Param) : List Param :=
  ps.map fun p => { p with requiresGrad := false }

/-- The two parameters (weight, bias) of a freshly constructed `nn.Linear`
layer; fresh parameters have `requires_grad = True`. -/
def linearLayerParams (base : Nat) : List Param :=
  [⟨.head, base, true⟩, ⟨.head, base + 1, true⟩]

/-- Parameters of the custom head: the two `nn.Linear` layers contribute
parameters; `ReLU`, `Dropout` and `LogSoftmax` have none. -/
def headParams : List Param :=
  linearLayerParams 0 ++ linearLayerParams 2

/-- Model of `Classifier._get_model` (lines 143-173).  The torchvision
registry lookup `getattr(models, architecture)` is abstracted by
`registry`; a missing name raises a `ValueError` with the message
`Unknown model architecture ...`.  Otherwise the
pre-trained model is instantiated, every one of its parameters is frozen,
the custom head is built from the `config` dictionary — its first linear
layer takes `config[input_units]` input features — and the head replaces
the stock classifier sub-module. -/
def getModel (registry : String → Option PretrainedModel) (config : Config) :
    Except PyError Model :=
  match registry (cfgStr config "architecture") with
  | none =>
      .error (.valueError ("Unknown model architecture " ++ cfgStr config "architecture" ++ "."))
  | some pm =>
    let frozenFeatures := freeze pm.featureParams
    let _frozenStockClassifier := freeze pm.classifierParams
    let clr : List Layer :=
      [.linear (cfgInt config "input_units") (cfgInt config "hidden_units"),
       .relu,
       .dropout (cfgQ config "dropout"),
       .linear (cfgInt config "hidden_units") (cfgInt config "output_units"),
       .logSoftmax 1]
    .ok { featureParams := frozenFeatures,
          classifierLayers := clr,
          classifierParams := headParams }

/-- The optimizer kind used by the source (`torch.optim.Adam`). -/
inductive OptimKind where
  | adam
deriving DecidableEq, Repr

/-- An optimizer: its kind, the parameters handed to it, and the learning
rate. -/
structure Optimizer where
  kind : OptimKind
  params : List Param
  lr : ℚ
deriving DecidableEq, Repr

/-- Model of `Classifier._initialize_network` (lines 175-182): rebuild the
model with `_get_model`, then bind an Adam optimizer to
`model.classifier.parameters()` with the configured learning rate. -/
def initNetwork (registry : String → Option PretrainedModel) (config : Config) :
    Except PyError (Model × Optimizer) :=
  match getModel registry config with
  | .error e => .error e
  | .ok m => .ok (m, { kind := .adam, params := m.classifierParams, lr := cfgQ config "learning_rate" })

/-- The attributes a fully constructed `Classifier` object holds. -/
structure ClassifierState where
  config : Config
  dataDirs : List (String × String)
  dataTransforms : DataTransforms
  dataSets : SplitSets
  dataLoaders : SplitLoaders
  model : Model
  optimizer : Optimizer
deriving DecidableEq, Repr

/-- Model of `Classifier.__init__` (lines 23-67) with the source's
parameter order.  The config dictionary is built first, then the data
directories are resolved (any error is raised immediately), then
transforms, datasets and loaders are derived, and finally
`_initialize_network` builds the model and optimizer.  `use_gpu` and
`category_names_file` are accepted and unused, as in the source. -/
def classifierInit (isDir : String → Bool) (registry : String → Option PretrainedModel)
    (data_dir : Option String) (output_units : PyNum) (architecture : String)
    (epochs hidden_units learning_rate dropout : PyNum)
    (_use_gpu : Bool) (_category_names_file : Option String) :
    Except PyError ClassifierState :=
  let config := mkConfig architecture dropout epochs hidden_units learning_rate output_units
  match getDataDirectories isDir data_dir with
  | .error e => .error e
  | .ok dirs =>
    let tfs := getDataTransforms
    let ds := getImageDatasets dirs tfs
    let dl := getDataLoaders ds
    match initNetwork registry config with
    | .error e => .error e
    | .ok mo =>
      .ok { config := config, dataDirs := dirs, dataTransforms := tfs,
            dataSets := ds, dataLoaders := dl, model := mo.1, optimizer := mo.2 }

/-- Fuel-indexed semantics of `Classifier.forward` (lines 184-187), whose
body is `return self.forward(features)`: each call immediately calls the
same method again, so a call stack of any finite depth is exhausted
without producing a value (`none`). -/
def forwardFuel (fuel : Nat) (features : List ℚ) : Option (List ℚ) :=
  match fuel with
  | 0 => none
  | n + 1 => forwardFuel n features

/-! Concrete stand-ins for the external collaborators, used to evaluate the
embedding on closed inputs. -/

/-- A tiny stand-in for the torchvision vgg16 factory result: one feature
parameter and one stock-classifier parameter, both trainable when freshly
loaded. -/
def vggStub : PretrainedModel :=
  { featureParams := [⟨.pretrained, 0, true⟩],
    classifierParams := [⟨.pretrained, 1, true⟩] }

/-- A registry that knows only the name vgg16. -/
def registryStub : String → Option PretrainedModel :=
  fun s => if s = "vgg16" then some vggStub else none

/-! Shared helper lemmas. -/

/-- Every parameter that went through the freezing loop reports
`requires_grad = False`. -/
theorem freeze_all_frozen (ps : List Param) : ∀ p ∈ freeze ps, p.requiresGrad = false := by
  intro p hp
  simp only [freeze, List.mem_map] at hp
  obtain ⟨q, _, rfl⟩ := hp
  rfl

/-- Filtering the frozen parameters for trainability yields nothing. -/
theorem freeze_filter_trainable (ps : List Param) :
    (freeze ps).filter (fun p => p.requiresGrad) = [] := by
  simp [freeze, List.filter_map, Function.comp]

/-- Inversion of a successful construction: the resolved directories and
the initialized network determine every attribute of the resulting state. -/
theorem classifierInit_ok_inv
    (isDir : String → Bool) (registry : String → Option PretrainedModel)
    (data_dir : Option String) (output_units : PyNum) (architecture : String)
    (epochs hidden_units learning_rate dropout : PyNum)
    (use_gpu : Bool) (category_names_file : Option String)
    (st : ClassifierState)
    (hok : classifierInit isDir registry data_dir output_units architecture epochs
        hidden_units learning_rate dropout use_gpu category_names_file = .ok st) :
    ∃ dirs mo,
      getDataDirectories isDir data_dir = .ok dirs ∧
      initNetwork registry
        (mkConfig architecture dropout epochs hidden_units learning_rate output_units) = .ok mo ∧
      st = { config := mkConfig architecture dropout epochs hidden_units learning_rate output_units,
             dataDirs := dirs,
             dataTransforms := getDataTransforms,
             dataSets := getImageDatasets dirs getDataTransforms,
             dataLoaders := getDataLoaders (getImageDatasets dirs getDataTransforms),
             model := mo.1,
             optimizer := mo.2 } := by
  have hbody : classifierInit isDir registry data_dir output_units architecture epochs
      hidden_units learning_rate dropout use_gpu category_names_file =
      (match getDataDirectories isDir data_dir with
       | .error e => .error e
       | .ok dirs =>
         match initNetwork registry
             (mkConfig architecture dropout epochs hidden_units learning_rate output_units) with
         | .error e => .error e
         | .ok mo =>
           .ok { config := mkConfig architecture dropout epochs hidden_units learning_rate output_units,
                 dataDirs := dirs,
                 dataTransforms := getDataTransforms,
                 dataSets := getImageDatasets dirs getDataTransforms,
                 dataLoaders := getDataLoaders (getImageDatasets dirs getDataTransforms),
                 model := mo.1,
                 optimizer := mo.2 }) := rfl
  rw [hbody] at hok
  rcases hdd : getDataDirectories isDir data_dir with e | dirs
  · rw [hdd] at hok
    exact Except.noConfusion hok
  · rw [hdd] at hok
    rcases hin : initNetwork registry
        (mkConfig architecture dropout epochs hidden_units learning_rate output_units) with e | mo
    · rw [hin] at hok
      exact Except.noConfusion hok
    · rw [hin] at hok
      exact ⟨dirs, mo, rfl, rfl, (Except.ok.inj hok).symm⟩

/-! Claim theorems. -/

/-- C1: evaluation of the code at the claim.  The claim says the input-unit
count is introspected from the selected feature extractor before the head is
built.  In the code it is the hardcoded dictionary entry
`input_units = 1`, never updated: for every registry, every registered
architecture and every pre-trained model the registry returns, the head
built by `_get_model` starts with a linear layer of input width `1`,
independent of the extractor. -/
theorem c1_input_units_hardcoded
    (registry : String → Option PretrainedModel) (architecture : String)
    (dropout epochs hidden_units learning_rate output_units : PyNum)
    (pm : PretrainedModel) (hreg : registry architecture = some pm) :
    ∃ m, getModel registry
        (mkConfig architecture dropout epochs hidden_units learning_rate output_units) = .ok m ∧
      m.classifierLayers.head? = some (.linear 1 (pyInt hidden_units)) := by
  have harch : cfgStr
      (mkConfig architecture dropout epochs hidden_units learning_rate output_units)
      "architecture" = architecture := rfl
  unfold getModel
  rw [harch, hreg]
  exact ⟨_, rfl, rfl⟩

/-- C1 witness: the default configuration (vgg16, 512 hidden units) against
a registry that knows vgg16 yields a head whose first linear layer has
input width 1. -/
theorem c1_input_units_hardcoded_witness :
    registryStub "vgg16" = some vggStub ∧
    ∃ m, getModel registryStub
        (mkConfig "vgg16" (.float 0.2) (.int 1) (.int 512) (.float 0.001) (.int 102)) = .ok m ∧
      m.classifierLayers.head? = some (.linear 1 512) :=
  ⟨rfl, c1_input_units_hardcoded registryStub "vgg16" (.float 0.2) (.int 1) (.int 512)
    (.float 0.001) (.int 102) vggStub rfl⟩

/-- C2: evaluation of the code at the claim.  The claim says `forward` does
not call itself and terminates after delegating once to the composed model.
The body of `Classifier.forward` is a call to the same `forward` method, so
no finite call stack ever produces a value: for every fuel bound the
fuel-indexed semantics returns `none`. -/
theorem c2_forward_self_call_diverges (fuel : Nat) (features : List ℚ) :
    forwardFuel fuel features = none := by
  induction fuel with
  | zero => rfl
  | succ n ih => exact ih

/-- C3: evaluation of the code at the claim.  With architecture vgg16,
hidden units 512 and output units 102, the head built by `_get_model` is
`Linear(1, 512), ReLU, Dropout(0.2), Linear(512, 102), LogSoftmax(dim=1)`:
its first linear layer has input width 1, not the claimed 4096. -/
theorem c3_vgg16_head_first_linear_width_one :
    ∃ m, getModel registryStub
        (mkConfig "vgg16" (.float 0.2) (.int 1) (.int 512) (.float 0.001) (.int 102)) = .ok m ∧
      m.classifierLayers =
        [.linear 1 512, .relu, .dropout 0.2, .linear 512 102, .logSoftmax 1] ∧
      m.classifierLayers.head? ≠ some (.linear 4096 512) := by
  exact ⟨_, rfl, rfl, by decide⟩

/-- C4: evaluation of the code at the claim.  The claim (and the source
docstring) says construction with the data root omitted succeeds and the
object can classify.  In the code, `_get_data_directories(None)` reaches
`os.path.join(None, test)` which raises `TypeError`, so construction with
`data_dir = None` always fails, for every filesystem, registry and
remaining argument. -/
theorem c4_omitted_data_root_raises_type_error
    (isDir : String → Bool) (registry : String → Option PretrainedModel)
    (output_units : PyNum) (architecture : String)
    (epochs hidden_units learning_rate dropout : PyNum)
    (use_gpu : Bool) (category_names_file : Option String) :
    classifierInit isDir registry none output_units architecture epochs hidden_units
        learning_rate dropout use_gpu category_names_file =
      .error (.typeError "expected str, bytes or os.PathLike object, not NoneType") := rfl

/-- C5: if the test, train or valid subdirectory of the given root is not a
directory, construction fails immediately — `classifierInit` itself returns
the error, before any dataset, loader or model is built — with a
`NotADirectoryError` whose message names a missing split and its path. -/
theorem c5_missing_split_fails_construction
    (isDir : String → Bool) (registry : String → Option PretrainedModel)
    (root : String) (output_units : PyNum) (architecture : String)
    (epochs hidden_units learning_rate dropout : PyNum)
    (use_gpu : Bool) (category_names_file : Option String)
    (hmiss : isDir (pathJoin root "test") = false ∨ isDir (pathJoin root "train") = false ∨
             isDir (pathJoin root "valid") = false) :
    ∃ split, split ∈ ["test", "train", "valid"] ∧ isDir (pathJoin root split) = false ∧
      classifierInit isDir registry (some root) output_units architecture epochs hidden_units
          learning_rate dropout use_gpu category_names_file =
        .error (.notADirectoryError
          ("Directory \"" ++ pathJoin root split ++ "\" does not exist for the \"" ++
            split ++ "\" data set.")) := by
  cases ht : isDir (pathJoin root "test") with
  | false =>
      exact ⟨"test", by simp, ht,
        by simp [classifierInit, getDataDirectories, List.find?, ht]⟩
  | true =>
      cases htr : isDir (pathJoin root "train") with
      | false =>
          exact ⟨"train", by simp, htr,
            by simp [classifierInit, getDataDirectories, List.find?, ht, htr]⟩
      | true =>
          cases hv : isDir (pathJoin root "valid") with
          | false =>
              exact ⟨"valid", by simp, hv,
                by simp [classifierInit, getDataDirectories, List.find?, ht, htr, hv]⟩
          | true => simp [ht, htr, hv] at hmiss

/-- C5 witness: on a filesystem with no directories at all, construction
from the root `data` fails with an error naming a missing split. -/
theorem c5_missing_split_fails_construction_witness :
    ∃ split, split ∈ ["test", "train", "valid"] ∧ (false = false) ∧
      classifierInit (fun _ => false) registryStub (some "data") (.int 102) "vgg16" (.int 1)
          (.int 512) (.float 0.001) (.float 0.2) true none =
        .error (.notADirectoryError
          ("Directory \"" ++ pathJoin "data" split ++ "\" does not exist for the \"" ++
            split ++ "\" data set.")) :=
  c5_missing_split_fails_construction (fun _ => false) registryStub "data" (.int 102) "vgg16"
    (.int 1) (.int 512) (.float 0.001) (.float 0.2) true none (Or.inl rfl)

/-- C6: for every architecture name the registry does not know,
`_get_model` raises a `ValueError` whose message says
`Unknown model architecture` and names the architecture, and no model is
returned. -/
theorem c6_unknown_architecture_error
    (registry : String → Option PretrainedModel) (architecture : String)
    (dropout epochs hidden_units learning_rate output_units : PyNum)
    (hreg : registry architecture = none) :
    getModel registry
        (mkConfig architecture dropout epochs hidden_units learning_rate output_units) =
      .error (.valueError ("Unknown model architecture " ++ architecture ++ ".")) ∧
    ∀ m, getModel registry
        (mkConfig architecture dropout epochs hidden_units learning_rate output_units) ≠ .ok m := by
  have harch : cfgStr
      (mkConfig architecture dropout epochs hidden_units learning_rate output_units)
      "architecture" = architecture := rfl
  have heq : getModel registry
      (mkConfig architecture dropout epochs hidden_units learning_rate output_units) =
      .error (.valueError ("Unknown model architecture " ++ architecture ++ ".")) := by
    unfold getModel
    rw [harch, hreg]
  refine ⟨heq, fun m hm => ?_⟩
  rw [heq] at hm
  exact Except.noConfusion hm

/-- C6 witness: the name not_a_real_net is absent from the stub registry
and model construction fails with the unknown-architecture error. -/
theorem c6_unknown_architecture_error_witness :
    getModel registryStub
        (mkConfig "not_a_real_net" (.float 0.2) (.int 1) (.int 512) (.float 0.001) (.int 102)) =
      .error (.valueError "Unknown model architecture not_a_real_net.") ∧
    ∀ m, getModel registryStub
        (mkConfig "not_a_real_net" (.float 0.2) (.int 1) (.int 512) (.float 0.001) (.int 102)) ≠
      .ok m :=
  c6_unknown_architecture_error registryStub "not_a_real_net" (.float 0.2) (.int 1) (.int 512)
    (.float 0.001) (.int 102) (by decide)

/-- C7: for every configuration whose architecture the registry resolves,
initializing the network succeeds and yields a model in which every
feature-extractor parameter reports non-trainable, the trainable parameters
of the whole model are exactly the head parameters, and the optimizer is
Adam, bound to exactly the head parameters, with the configured learning
rate.  The statement is about `_initialize_network`, which is the step run
both at construction and at every re-initialization. -/
theorem c7_freeze_and_optimizer_scope
    (registry : String → Option PretrainedModel) (architecture : String)
    (dropout epochs hidden_units learning_rate output_units : PyNum)
    (pm : PretrainedModel) (hreg : registry architecture = some pm) :
    ∃ m opt,
      initNetwork registry
          (mkConfig architecture dropout epochs hidden_units learning_rate output_units) =
        .ok (m, opt) ∧
      (∀ p ∈ m.featureParams, p.requiresGrad = false) ∧
      (m.featureParams ++ m.classifierParams).filter (fun p => p.requiresGrad) =
        m.classifierParams ∧
      m.classifierParams = headParams ∧
      opt.kind = .adam ∧ opt.params = m.classifierParams ∧ opt.lr = pyFloat learning_rate := by
  have harch : cfgStr
      (mkConfig architecture dropout epochs hidden_units learning_rate output_units)
      "architecture" = architecture := rfl
  unfold initNetwork getModel
  rw [harch, hreg]
  refine ⟨_, _, rfl, freeze_all_frozen pm.featureParams, ?_, rfl, rfl, rfl, rfl⟩
  rw [List.filter_append, freeze_filter_trainable]
  rfl

/-- C7 witness: with the stub vgg16 registry entry (one trainable feature
parameter, one trainable stock-classifier parameter), initialization
freezes the feature parameter, the trainable set is exactly the four head
parameters, and Adam holds exactly those with learning rate 0.001. -/
theorem c7_freeze_and_optimizer_scope_witness :
    ∃ m opt,
      initNetwork registryStub
          (mkConfig "vgg16" (.float 0.2) (.int 1) (.int 512) (.float 0.001) (.int 102)) =
        .ok (m, opt) ∧
      (∀ p ∈ m.featureParams, p.requiresGrad = false) ∧
      (m.featureParams ++ m.classifierParams).filter (fun p => p.requiresGrad) =
        m.classifierParams ∧
      m.classifierParams = headParams ∧
      opt.kind = .adam ∧ opt.params = m.classifierParams ∧ opt.lr = pyFloat (.float 0.001) :=
  c7_freeze_and_optimizer_scope registryStub "vgg16" (.float 0.2) (.int 1) (.int 512)
    (.float 0.001) (.int 102) vggStub rfl

/-- The directory table a construction from the root data resolves when
every path is a directory. -/
def dirsStub : List (String × String) :=
  [("test", pathJoin "data" "test"), ("train", pathJoin "data" "train"),
   ("valid", pathJoin "data" "valid")]

/-- The configuration dictionary of the stub construction: default
hyperparameters of the source constructor. -/
def configStub : Config :=
  mkConfig "vgg16" (.float 0.2) (.int 1) (.int 512) (.float 0.001) (.int 102)

/-- The state produced by constructing on the stub collaborators: the
filesystem where every path is a directory, the stub registry, the root
data, and the default hyperparameters. -/
def stateStub : ClassifierState :=
  { config := configStub,
    dataDirs := dirsStub,
    dataTransforms := getDataTransforms,
    dataSets := getImageDatasets dirsStub getDataTransforms,
    dataLoaders := getDataLoaders (getImageDatasets dirsStub getDataTransforms),
    model := { featureParams := freeze vggStub.featureParams,
               classifierLayers :=
                 [.linear (cfgInt configStub "input_units") (cfgInt configStub "hidden_units"),
                  .relu,
                  .dropout (cfgQ configStub "dropout"),
                  .linear (cfgInt configStub "hidden_units") (cfgInt configStub "output_units"),
                  .logSoftmax 1],
               classifierParams := headParams },
    optimizer := { kind := .adam, params := headParams, lr := cfgQ configStub "learning_rate" } }

/-- C8: every successful construction holds, per split, an ImageFolder
dataset rooted at that split's resolved directory with that split's
transform, and a loader over that dataset with batch size 64; only the
train loader shuffles. -/
theorem c8_loaders_shape
    (isDir : String → Bool) (registry : String → Option PretrainedModel)
    (data_dir : Option String) (output_units : PyNum) (architecture : String)
    (epochs hidden_units learning_rate dropout : PyNum)
    (use_gpu : Bool) (category_names_file : Option String)
    (st : ClassifierState)
    (hok : classifierInit isDir registry data_dir output_units architecture epochs
        hidden_units learning_rate dropout use_gpu category_names_file = .ok st) :
    st.dataLoaders.test.batchSize = 64 ∧ st.dataLoaders.test.shuffle = false ∧
    st.dataLoaders.train.batchSize = 64 ∧ st.dataLoaders.train.shuffle = true ∧
    st.dataLoaders.valid.batchSize = 64 ∧ st.dataLoaders.valid.shuffle = false ∧
    st.dataLoaders.test.dataset = st.dataSets.test ∧
    st.dataLoaders.train.dataset = st.dataSets.train ∧
    st.dataLoaders.valid.dataset = st.dataSets.valid ∧
    st.dataSets.test = ⟨dirOf st.dataDirs "test", st.dataTransforms.test⟩ ∧
    st.dataSets.train = ⟨dirOf st.dataDirs "train", st.dataTransforms.train⟩ ∧
    st.dataSets.valid = ⟨dirOf st.dataDirs "valid", st.dataTransforms.valid⟩ := by
  obtain ⟨dirs, mo, hdd, hin, rfl⟩ := classifierInit_ok_inv isDir registry data_dir output_units
    architecture epochs hidden_units learning_rate dropout use_gpu category_names_file st hok
  exact ⟨rfl, rfl, rfl, rfl, rfl, rfl, rfl, rfl, rfl, rfl, rfl, rfl⟩

/-- C8 witness: the concrete construction on the stub collaborators
succeeds and its loaders have the stated batch sizes, shuffle flags and
datasets. -/
theorem c8_loaders_shape_witness :
    stateStub.dataLoaders.test.batchSize = 64 ∧ stateStub.dataLoaders.test.shuffle = false ∧
    stateStub.dataLoaders.train.batchSize = 64 ∧ stateStub.dataLoaders.train.shuffle = true ∧
    stateStub.dataLoaders.valid.batchSize = 64 ∧ stateStub.dataLoaders.valid.shuffle = false ∧
    stateStub.dataLoaders.test.dataset = stateStub.dataSets.test ∧
    stateStub.dataLoaders.train.dataset = stateStub.dataSets.train ∧
    stateStub.dataLoaders.valid.dataset = stateStub.dataSets.valid ∧
    stateStub.dataSets.test = ⟨dirOf stateStub.dataDirs "test", stateStub.dataTransforms.test⟩ ∧
    stateStub.dataSets.train = ⟨dirOf stateStub.dataDirs "train", stateStub.dataTransforms.train⟩ ∧
    stateStub.dataSets.valid = ⟨dirOf stateStub.dataDirs "valid", stateStub.dataTransforms.valid⟩ :=
  c8_loaders_shape (fun _ => true) registryStub (some "data") (.int 102) "vgg16" (.int 1)
    (.int 512) (.float 0.001) (.float 0.2) true none stateStub rfl

/-- C9: the transform builder returns exactly these pipelines: the train
pipeline is randomized rotation, randomized resized crop, randomized
horizontal flip, then tensor conversion (and nothing else — in particular
no normalization); the valid pipeline is a fixed resize, center crop,
tensor conversion and normalization with the ImageNet channel statistics;
the test pipeline is identical to the valid one. -/
theorem c9_transform_pipelines :
    getDataTransforms.train =
      [.randomRotation 30, .randomResizedCrop 224, .randomHorizontalFlip, .toTensor] ∧
    getDataTransforms.valid =
      [.resize 255, .centerCrop 224, .toTensor,
       .normalize [0.485, 0.456, 0.406] [0.229, 0.224, 0.225]] ∧
    getDataTransforms.test = getDataTransforms.valid :=
  ⟨rfl, rfl, rfl⟩

/-- C10: for every constructor input, the configuration dictionary has
exactly the keys architecture, dropout, epochs, hidden_units,
learning_rate, input_units, output_units in that order; dropout and
learning_rate are stored as float entries via the float coercion, epochs,
hidden_units and output_units as int entries via the int coercion,
whatever numeric type was passed; and every successful construction (whose
last step is the initialization `_initialize_network`) carries exactly this
dictionary as its configuration. -/
theorem c10_config_shape
    (architecture : String) (dropout epochs hidden_units learning_rate output_units : PyNum) :
    (mkConfig architecture dropout epochs hidden_units learning_rate output_units).map Prod.fst =
      ["architecture", "dropout", "epochs", "hidden_units", "learning_rate",
       "input_units", "output_units"] ∧
    (mkConfig architecture dropout epochs hidden_units learning_rate output_units).lookup
      "architecture" = some (.s architecture) ∧
    (mkConfig architecture dropout epochs hidden_units learning_rate output_units).lookup
      "dropout" = some (.f (pyFloat dropout)) ∧
    (mkConfig architecture dropout epochs hidden_units learning_rate output_units).lookup
      "epochs" = some (.i (pyInt epochs)) ∧
    (mkConfig architecture dropout epochs hidden_units learning_rate output_units).lookup
      "hidden_units" = some (.i (pyInt hidden_units)) ∧
    (mkConfig architecture dropout epochs hidden_units learning_rate output_units).lookup
      "learning_rate" = some (.f (pyFloat learning_rate)) ∧
    (mkConfig architecture dropout epochs hidden_units learning_rate output_units).lookup
      "input_units" = some (.i 1) ∧
    (mkConfig architecture dropout epochs hidden_units learning_rate output_units).lookup
      "output_units" = some (.i (pyInt output_units)) ∧
    ∀ (isDir : String → Bool) (registry : String → Option PretrainedModel)
      (data_dir : Option String) (use_gpu : Bool) (category_names_file : Option String)
      (st : ClassifierState),
      classifierInit isDir registry data_dir output_units architecture epochs hidden_units
          learning_rate dropout use_gpu category_names_file = .ok st →
      st.config = mkConfig architecture dropout epochs hidden_units learning_rate output_units := by
  refine ⟨rfl, rfl, rfl, rfl, rfl, rfl, rfl, rfl, ?_⟩
  intro isDir registry data_dir use_gpu category_names_file st hok
  obtain ⟨dirs, mo, hdd, hin, rfl⟩ := classifierInit_ok_inv isDir registry data_dir output_units
    architecture epochs hidden_units learning_rate dropout use_gpu category_names_file st hok
  rfl

/-- C10 witness: the concrete configuration built from mixed numeric
arguments has the seven keys, and the concrete successful construction
carries it unchanged. -/
theorem c10_config_shape_witness :
    (mkConfig "vgg16" (.float 0.2) (.int 1) (.int 512) (.float 0.001) (.int 102)).map Prod.fst =
      ["architecture", "dropout", "epochs", "hidden_units", "learning_rate",
       "input_units", "output_units"] ∧
    stateStub.config = mkConfig "vgg16" (.float 0.2) (.int 1) (.int 512) (.float 0.001) (.int 102) :=
  ⟨(c10_config_shape "vgg16" (.float 0.2) (.int 1) (.int 512) (.float 0.001) (.int 102)).1,
   (c10_config_shape "vgg16" (.float 0.2) (.int 1) (.int 512) (.float 0.001)
       (.int 102)).2.2.2.2.2.2.2.2
     (fun _ => true) registryStub (some "data") true none stateStub rfl⟩

end Classifier
